import Mathlib

/-!
# Verification of the NewsAIGenerate session/persistence core

Shallow embedding of the repository's storage layer (`storage.py`), backend
service retry logic (`gemini_service.py`) and interaction controller
(`handlers.py`), together with proofs settling the frozen claims about the
specification.

Conventions of the embedding:
* A Python `BytesIO` buffer is modelled by its byte content, a `List Nat`
  with every element `< 256`; `seek(0)` followed by `read()` yields exactly
  that content.
* Python exceptions are modelled by `Option`: `none` is a raised exception
  at the point where the source would raise, and a `try/except` block is a
  `match` on the `Option`.
* The external Gemini backend is modelled as an oracle indexed by the prompt
  string and the retry-attempt number, so one theorem quantifies over every
  possible backend behaviour.
* JSON snapshot keys: the source stores `str(chat_id)` and reads it back via
  `int(chat_id_str)`; decimal printing/parsing of integers is a bijection,
  so the snapshot key is modelled directly as the `Int` it denotes.
-/

/-- Byte strings: each element is a byte value `< 256`. -/
abbrev Bytes := List Nat

/-- Validity of a byte string: every element fits in one byte. -/
def BytesValid (bs : Bytes) : Prop := ∀ b ∈ bs, b < 256

instance (bs : Bytes) : Decidable (BytesValid bs) := by
  unfold BytesValid; infer_instance

/-! ## Base64 (the `base64.b64encode` / `base64.b64decode` cycle used by
`storage.py` to persist image bytes inside the JSON snapshot) -/

/-- The standard base64 alphabet, as used by Python's `base64.b64encode`. -/
def b64Alphabet : List Char :=
  "ABCDEFGHIJKLMNOPQRSTUVWXYZabcdefghijklmnopqrstuvwxyz0123456789+/".toList

/-- Character for a sextet value (values `≥ 64` never arise on valid bytes). -/
def b64Char (n : Nat) : Char := b64Alphabet.getD n '='

/-- Sextet value of an alphabet character; `none` for a character outside
the alphabet (Python's `b64decode` raises `binascii.Error` there). -/
def b64Index (c : Char) : Option Nat := b64Alphabet.findIdx? (fun x => x = c)

/-- Base64 encoding of a byte string, including `=` padding, exactly as
`base64.b64encode` produces it. -/
def base64Encode : Bytes → List Char
  | [] => []
  | [b1] => [b64Char (b1 / 4), b64Char (b1 % 4 * 16), '=', '=']
  | [b1, b2] =>
      [b64Char (b1 / 4), b64Char (b1 % 4 * 16 + b2 / 16), b64Char (b2 % 16 * 4), '=']
  | b1 :: b2 :: b3 :: rest =>
      b64Char (b1 / 4) :: b64Char (b1 % 4 * 16 + b2 / 16) ::
      b64Char (b2 % 16 * 4 + b3 / 64) :: b64Char (b3 % 64) :: base64Encode rest

/-- The decode loop of CPython's `binascii.a2b_base64` in non-strict mode,
which is what `base64.b64decode` calls with its default `validate=False`:
characters outside the alphabet are silently discarded; a data character
advances the quad position, emitting one byte from positions 1, 2 and 3 and
resetting the pad count; an `=` increments the pad count and, once the
current quad is completable (`quad_pos >= 2 && quad_pos + pads >= 4`), ends
decoding with the bytes emitted so far, ignoring the rest of the input.
Arguments: remaining input, quad position, leftover bits, pad count,
emitted bytes. -/
def a2bLoop : List Char → Nat → Nat → Nat → Bytes → Option Bytes
  | [], quadPos, _, _, acc =>
      if quadPos = 0 then some acc else none
  | c :: rest, quadPos, leftchar, pads, acc =>
      if c = '=' then
        if 2 ≤ quadPos ∧ 4 ≤ quadPos + (pads + 1) then some acc
        else a2bLoop rest quadPos leftchar (pads + 1) acc
      else
        match b64Index c with
        | none => a2bLoop rest quadPos leftchar pads acc
        | some v =>
            match quadPos with
            | 0 => a2bLoop rest 1 v 0 acc
            | 1 => a2bLoop rest 2 (v % 16) 0 (acc ++ [leftchar * 4 + v / 16])
            | 2 => a2bLoop rest 3 (v % 4) 0 (acc ++ [leftchar * 16 + v / 4])
            | _ => a2bLoop rest 0 0 0 (acc ++ [leftchar * 64 + v])

/-- Base64 decoding as `base64.b64decode(..., validate=False)` performs it;
`none` models the `binascii.Error` raised when the data characters leave an
incomplete quad at the end of the input (e.g. a single data character, or
two data characters with no padding). -/
def base64Decode (cs : List Char) : Option Bytes := a2bLoop cs 0 0 0 []

theorem b64Index_b64Char : ∀ s : Nat, s < 64 → b64Index (b64Char s) = some s := by
  decide

theorem b64Char_ne_eq : ∀ s : Nat, s < 64 → b64Char s ≠ '=' := by
  decide

theorem a2bLoop_step0 (c : Char) (v : Nat) (hv : b64Index c = some v) (hne : c ≠ '=')
    (rest : List Char) (leftchar pads : Nat) (acc : Bytes) :
    a2bLoop (c :: rest) 0 leftchar pads acc = a2bLoop rest 1 v 0 acc := by
  simp [a2bLoop, hne, hv]

theorem a2bLoop_step1 (c : Char) (v : Nat) (hv : b64Index c = some v) (hne : c ≠ '=')
    (rest : List Char) (leftchar pads : Nat) (acc : Bytes) :
    a2bLoop (c :: rest) 1 leftchar pads acc
      = a2bLoop rest 2 (v % 16) 0 (acc ++ [leftchar * 4 + v / 16]) := by
  simp [a2bLoop, hne, hv]

theorem a2bLoop_step2 (c : Char) (v : Nat) (hv : b64Index c = some v) (hne : c ≠ '=')
    (rest : List Char) (leftchar pads : Nat) (acc : Bytes) :
    a2bLoop (c :: rest) 2 leftchar pads acc
      = a2bLoop rest 3 (v % 4) 0 (acc ++ [leftchar * 16 + v / 4]) := by
  simp [a2bLoop, hne, hv]

theorem a2bLoop_step3 (c : Char) (v : Nat) (hv : b64Index c = some v) (hne : c ≠ '=')
    (rest : List Char) (leftchar pads : Nat) (acc : Bytes) :
    a2bLoop (c :: rest) 3 leftchar pads acc
      = a2bLoop rest 0 0 0 (acc ++ [leftchar * 64 + v]) := by
  simp [a2bLoop, hne, hv]

theorem a2bLoop_pad_continue (rest : List Char) (quadPos leftchar pads : Nat) (acc : Bytes)
    (h : ¬(2 ≤ quadPos ∧ 4 ≤ quadPos + (pads + 1))) :
    a2bLoop ('=' :: rest) quadPos leftchar pads acc
      = a2bLoop rest quadPos leftchar (pads + 1) acc := by
  simp [a2bLoop, h]

theorem a2bLoop_pad_done (rest : List Char) (quadPos leftchar pads : Nat) (acc : Bytes)
    (h : 2 ≤ quadPos ∧ 4 ≤ quadPos + (pads + 1)) :
    a2bLoop ('=' :: rest) quadPos leftchar pads acc = some acc := by
  simp [a2bLoop, h]

theorem a2bLoop_encode (bs : Bytes) (h : BytesValid bs) :
    ∀ acc : Bytes, a2bLoop (base64Encode bs) 0 0 0 acc = some (acc ++ bs) := by
  induction bs using base64Encode.induct with
  | case1 => intro acc; simp [base64Encode, a2bLoop]
  | case2 b1 =>
      intro acc
      have h1 : b1 < 256 := h b1 (by simp)
      rw [base64Encode,
          a2bLoop_step0 _ _ (b64Index_b64Char (b1 / 4) (by omega))
            (b64Char_ne_eq (b1 / 4) (by omega)),
          a2bLoop_step1 _ _ (b64Index_b64Char (b1 % 4 * 16) (by omega))
            (b64Char_ne_eq (b1 % 4 * 16) (by omega)),
          a2bLoop_pad_continue _ _ _ _ _ (by norm_num),
          a2bLoop_pad_done _ _ _ _ _ (by norm_num)]
      have hb : b1 / 4 * 4 + b1 % 4 * 16 / 16 = b1 := by omega
      rw [hb]
  | case3 b1 b2 =>
      intro acc
      have h1 : b1 < 256 := h b1 (by simp)
      have h2 : b2 < 256 := h b2 (by simp)
      rw [base64Encode,
          a2bLoop_step0 _ _ (b64Index_b64Char (b1 / 4) (by omega))
            (b64Char_ne_eq (b1 / 4) (by omega)),
          a2bLoop_step1 _ _ (b64Index_b64Char (b1 % 4 * 16 + b2 / 16) (by omega))
            (b64Char_ne_eq (b1 % 4 * 16 + b2 / 16) (by omega)),
          a2bLoop_step2 _ _ (b64Index_b64Char (b2 % 16 * 4) (by omega))
            (b64Char_ne_eq (b2 % 16 * 4) (by omega)),
          a2bLoop_pad_done _ _ _ _ _ (by norm_num)]
      have hx : b1 / 4 * 4 + (b1 % 4 * 16 + b2 / 16) / 16 = b1 := by omega
      have hy : (b1 % 4 * 16 + b2 / 16) % 16 * 16 + b2 % 16 * 4 / 4 = b2 := by omega
      rw [hx, hy, List.append_assoc]
      rfl
  | case4 b1 b2 b3 rest ih =>
      intro acc
      have h1 : b1 < 256 := h b1 (by simp)
      have h2 : b2 < 256 := h b2 (by simp)
      have h3 : b3 < 256 := h b3 (by simp)
      have hrest : BytesValid rest := by
        intro b hb; exact h b (by simp [hb])
      rw [base64Encode,
          a2bLoop_step0 _ _ (b64Index_b64Char (b1 / 4) (by omega))
            (b64Char_ne_eq (b1 / 4) (by omega)),
          a2bLoop_step1 _ _ (b64Index_b64Char (b1 % 4 * 16 + b2 / 16) (by omega))
            (b64Char_ne_eq (b1 % 4 * 16 + b2 / 16) (by omega)),
          a2bLoop_step2 _ _ (b64Index_b64Char (b2 % 16 * 4 + b3 / 64) (by omega))
            (b64Char_ne_eq (b2 % 16 * 4 + b3 / 64) (by omega)),
          a2bLoop_step3 _ _ (b64Index_b64Char (b3 % 64) (by omega))
            (b64Char_ne_eq (b3 % 64) (by omega)),
          ih hrest]
      have hx : b1 / 4 * 4 + (b1 % 4 * 16 + b2 / 16) / 16 = b1 := by omega
      have hy : (b1 % 4 * 16 + b2 / 16) % 16 * 16 + (b2 % 16 * 4 + b3 / 64) / 4 = b2 := by
        omega
      have hz : (b2 % 16 * 4 + b3 / 64) % 4 * 64 + b3 % 64 = b3 := by omega
      rw [hx, hy, hz]
      simp

theorem base64_roundtrip (bs : Bytes) (h : BytesValid bs) :
    base64Decode (base64Encode bs) = some bs := by
  simpa [base64Decode] using a2bLoop_encode bs h []

/-! ## `storage.py` — `PostData` and `PostStorage` -/

/-- Embeds the `PostData` dataclass; the `BytesIO` image is its byte content. -/
structure PostData where
  text : String
  image : Bytes
  chat_id : Int
  original_text : Option String := none
  message_id : Option Int := none
deriving Repr, DecidableEq

/-- One value of the JSON snapshot dictionary, as written by
`PostStorage._save_to_disk` (the key `str(chat_id)` is modelled as the
integer it denotes). -/
structure SnapEntry where
  text : String
  original_text : Option String
  image_base64 : List Char
  chat_id : Int
  message_id : Option Int
deriving Repr, DecidableEq

/-- The persisted snapshot file: missing, present but not valid JSON
(`json.load` raises), or parsed into an ordered list of entries. -/
inductive SnapshotFile
  | absent
  | corrupt
  | parsed (entries : List (Int × SnapEntry))
deriving Repr, DecidableEq

/-- Python dict assignment `d[k] = v`: replaces the value in place if the key
is present, otherwise appends the pair (insertion order preserved). -/
def dictInsert (ps : List (Int × PostData)) (cid : Int) (pd : PostData) :
    List (Int × PostData) :=
  if ps.any (fun e => e.fst = cid) then
    ps.map (fun e => if e.fst = cid then (cid, pd) else e)
  else
    ps ++ [(cid, pd)]

/-- Python dict lookup `d.get(k)`. -/
def dictGet (ps : List (Int × PostData)) (cid : Int) : Option PostData :=
  (ps.find? (fun e => e.fst = cid)).map Prod.snd

/-- Python dict deletion `del d[k]`. -/
def dictErase (ps : List (Int × PostData)) (cid : Int) : List (Int × PostData) :=
  ps.filter (fun e => e.fst ≠ cid)

/-- Serialisation of one map entry inside `PostStorage._save_to_disk`: the
image bytes are read back from position 0 and base64-encoded. -/
def serializeEntry (e : Int × PostData) : Int × SnapEntry :=
  (e.fst,
   { text := e.snd.text
     original_text := e.snd.original_text
     image_base64 := base64Encode e.snd.image
     chat_id := e.snd.chat_id
     message_id := e.snd.message_id })

/-- Embeds `PostStorage._save_to_disk`: the whole in-memory map is serialised
as one replacement snapshot, images as base64. -/
def saveToDisk (posts : List (Int × PostData)) : SnapshotFile :=
  .parsed (posts.map serializeEntry)

/-- Reconstruction of one `PostData` from a snapshot entry, as in the loop
body of `PostStorage._load_from_disk`; `none` models the exception raised by
`base64.b64decode` on a malformed image field. -/
def loadEntry (cid : Int) (e : SnapEntry) : Option PostData :=
  (base64Decode e.image_base64).map (fun bytes =>
    { text := e.text
      image := bytes
      chat_id := cid
      original_text := e.original_text
      message_id := e.message_id })

/-- The entry loop of `PostStorage._load_from_disk`: entries are inserted one
by one; the first failing entry aborts the loop (the exception is caught by
the surrounding handler), keeping everything inserted before it. The boolean
reports whether the loop finished without an exception. -/
def loadLoop (acc : List (Int × PostData)) :
    List (Int × SnapEntry) → List (Int × PostData) × Bool
  | [] => (acc, true)
  | (cid, e) :: rest =>
      match loadEntry cid e with
      | none => (acc, false)
      | some pd => loadLoop (dictInsert acc cid pd) rest

/-- Embeds `PostStorage._load_from_disk`: a missing file yields no data; an
unparseable file raises inside the `try`, leaving no data and removing the
file; a parsed file is loaded entry by entry, and a failure mid-loop keeps
the prefix loaded so far and removes the file. Returns the loaded map and
the state of the snapshot file afterwards. -/
def loadFromDisk : SnapshotFile → List (Int × PostData) × SnapshotFile
  | .absent => ([], .absent)
  | .corrupt => ([], .absent)
  | .parsed entries =>
      match loadLoop [] entries with
      | (posts, true) => (posts, .parsed entries)
      | (posts, false) => (posts, .absent)

/-- In-memory map plus the persisted snapshot file backing it. -/
structure PostStorage where
  posts : List (Int × PostData)
  disk : SnapshotFile
deriving Repr, DecidableEq

/-- Embeds `PostStorage.__init__` / a reload after restart: the in-memory
state is rebuilt from the persisted snapshot. -/
def PostStorage.reload (file : SnapshotFile) : PostStorage :=
  { posts := (loadFromDisk file).fst, disk := (loadFromDisk file).snd }

/-- Embeds `PostStorage.save`: unconditional upsert followed by a
synchronous flush of the whole map. -/
def PostStorage.save (s : PostStorage) (cid : Int) (pd : PostData) : PostStorage :=
  let posts := dictInsert s.posts cid pd
  { posts := posts, disk := saveToDisk posts }

/-- Embeds `PostStorage.get`: pure lookup. -/
def PostStorage.get (s : PostStorage) (cid : Int) : Option PostData :=
  dictGet s.posts cid

/-- Embeds `PostStorage.delete`: removes the record if present and flushes;
no-op when absent. -/
def PostStorage.delete (s : PostStorage) (cid : Int) : PostStorage :=
  if (dictGet s.posts cid).isSome then
    let posts := dictErase s.posts cid
    { posts := posts, disk := saveToDisk posts }
  else s

/-- Embeds `PostStorage.update_text`: mutate the record's `text` in place
and flush when the record exists (returning `true`), otherwise report
`false` without touching memory or disk. -/
def PostStorage.update_text (s : PostStorage) (cid : Int) (new_text : String) :
    PostStorage × Bool :=
  match dictGet s.posts cid with
  | some pd =>
      let posts := dictInsert s.posts cid { pd with text := new_text }
      ({ posts := posts, disk := saveToDisk posts }, true)
  | none => (s, false)

/-- Embeds `PostStorage.update_image`: same contract as `update_text` for
the `image` field. -/
def PostStorage.update_image (s : PostStorage) (cid : Int) (new_image : Bytes) :
    PostStorage × Bool :=
  match dictGet s.posts cid with
  | some pd =>
      let posts := dictInsert s.posts cid { pd with image := new_image }
      ({ posts := posts, disk := saveToDisk posts }, true)
  | none => (s, false)

/-- Embeds `PostStorage.clear`: drop everything, delete the snapshot. -/
def PostStorage.clear (_s : PostStorage) : PostStorage :=
  { posts := [], disk := .absent }

/-! ## `gemini_service.py` — backend capability with bounded retry

The external Gemini API is an oracle: for a text call it maps the prompt
string and the attempt number to `none` (the call raised, or the response
was empty/falsy — both retried identically by the source) or `some t` (a
response whose `.text` is the non-empty string `t`). -/

/-- Behaviour of the text model: prompt and attempt number to response. -/
abbrev TextOracle := String → Nat → Option String

/-- Truthiness of one response, as checked by
`if not response or not response.text: raise ValueError` — an empty `.text`
counts as a failed attempt. -/
def textAttemptOk : Option String → Option String
  | some t => if t = "" then none else some t
  | none => none

/-- Python's `str.strip()` on a response text: drop whitespace from both
ends. -/
def pyStrip (s : String) : String :=
  ⟨((s.data.dropWhile Char.isWhitespace).reverse.dropWhile Char.isWhitespace).reverse⟩

/-- The three-attempt retry loop shared by `shorten_news`,
`generate_image_prompt` and `edit_text_with_instruction`: first successful
attempt wins and its text is `.strip()`ed; after the third failure the last
exception is re-raised (`none`). -/
def retryText (oracle : TextOracle) (prompt : String) : Option String :=
  match textAttemptOk (oracle prompt 0) with
  | some t => some (pyStrip t)
  | none =>
      match textAttemptOk (oracle prompt 1) with
      | some t => some (pyStrip t)
      | none =>
          match textAttemptOk (oracle prompt 2) with
          | some t => some (pyStrip t)
          | none => none

/-- Embeds `GeminiService.shorten_news`. -/
def shorten_news (oracle : TextOracle) (news_text : String) : Option String :=
  retryText oracle
    ("Укороти новость: " ++ news_text ++ ". Ответ должен содержать ТОЛЬКО новость!")

/-- Embeds `GeminiService.generate_image_prompt`. -/
def generate_image_prompt (oracle : TextOracle) (news_text : String) : Option String :=
  retryText oracle
    ("Напиши промт для фото к новости, скинь только промт: " ++ news_text)

/-- Embeds `GeminiService.edit_text_with_instruction`. -/
def edit_text_with_instruction (oracle : TextOracle) (current_text instruction : String) :
    Option String :=
  retryText oracle
    ("Изменить текст согласно инструкции: '" ++ instruction ++ "'. Текущий текст: '"
      ++ current_text ++ "'. Верни только измененный текст, без лишних объяснений.")

/-- Behaviour of one image-model attempt in `_generate_image_sync`: the call
raised, or returned a response with no extractable `inline_data`, or
produced image bytes (after any base64 decode of a string payload). -/
inductive GenAttempt
  | genRaise
  | noImage
  | image (data : Bytes)
deriving Repr, DecidableEq

/-- Behaviour of the image model: prompt and attempt number to outcome. -/
abbrev ImageOracle := String → Nat → GenAttempt

/-- Embeds `GeminiService._create_placeholder_image`. The source renders a
1200x630 dark PNG with PIL; the embedding keeps only its byte content,
standing in the PNG signature bytes — the development relies solely on the
placeholder being non-empty, which any PNG output of `Image.save` is. -/
def placeholderImage : Bytes := [137, 80, 78, 71, 13, 10, 26, 10]

/-- One iteration of the `_generate_image_sync` attempt loop: an exception
(`none`) falls through to the retry logic; a response without an image, or
with zero-size data, returns the placeholder immediately; otherwise the
extracted bytes are returned. -/
def generateImageStep (oracle : ImageOracle) (prompt : String) (i : Nat) : Option Bytes :=
  match oracle prompt i with
  | .genRaise => none
  | .noImage => some placeholderImage
  | .image d => if d.length = 0 then some placeholderImage else some d

/-- Embeds `GeminiService._generate_image_sync`: three attempts; an
exception on the last attempt degrades to the placeholder instead of
propagating. -/
def generateImageSync (oracle : ImageOracle) (prompt : String) : Bytes :=
  match generateImageStep oracle prompt 0 with
  | some b => b
  | none =>
      match generateImageStep oracle prompt 1 with
      | some b => b
      | none =>
          match generateImageStep oracle prompt 2 with
          | some b => b
          | none => placeholderImage

/-- Embeds `GeminiService.process_news_full`: shorten the text, then either
adopt the user-supplied image or generate one from a generated prompt.
Exceptions from the text calls propagate (`none`). -/
def process_news_full (textO : TextOracle) (imgO : ImageOracle)
    (news_text : String) (user_image : Option Bytes) : Option (String × Bytes) :=
  match shorten_news textO news_text with
  | none => none
  | some shortened =>
      match user_image with
      | some img => some (shortened, img)
      | none =>
          match generate_image_prompt textO shortened with
          | none => none
          | some prompt => some (shortened, generateImageSync imgO prompt)

/-! ## `handlers.py` — session flags, inbound messages and the controller -/

/-- The per-chat session flags kept in `context.user_data`; a missing key
reads as falsy, so the three keys are modelled as booleans (default
`false`) and `pop` as setting the flag to `false`. -/
structure UserFlags where
  waiting_for_manual_edit : Bool := false
  waiting_for_ai_edit : Bool := false
  waiting_for_image : Bool := false
deriving Repr, DecidableEq

/-- An inbound chat message as the controller reads it: optional text,
the photo-size list (bytes of each entry, download modelled as identity),
a video marker, and an optional caption. -/
structure Message where
  text : Option String := none
  photo : List Bytes := []
  video : Bool := false
  caption : Option String := none
deriving Repr, DecidableEq

/-- Python truthiness of an optional string (`None` and `""` are falsy). -/
def truthyStr : Option String → Bool
  | some s => !(s == "")
  | none => false

/-- Python `a or b` on an optional string against a default, with string
truthiness, as in `post_data.original_text or post_data.text`. -/
def pyOrStr (a : Option String) (b : String) : String :=
  match a with
  | some s => if s == "" then b else s
  | none => b

/-- The user-visible outcome of handling one event, stripped of transport
details: only the replies the claims talk about are distinguished. -/
inductive Reply
  | pleaseSendImage
  | dataNotFound
  | processError
  | editError
  | imageGenError
  | preview (text : String) (image : Bytes)
  | published (text : String) (image : Bytes)
  | cancelled
  | menuShown
  | promptShown
deriving Repr, DecidableEq

/-- Combined per-chat controller state: the durable store plus the transient
session flags of this chat. -/
structure BotState where
  storage : PostStorage
  flags : UserFlags
deriving Repr, DecidableEq

/-- Embeds `_handle_manual_edit_input`: clear the flag, then either report
not-found or replace the text verbatim and re-render the preview. -/
def handle_manual_edit_input (st : BotState) (cid : Int) (msg : Message) :
    BotState × List Reply :=
  let new_text := msg.text.getD ""
  let flags := { st.flags with waiting_for_manual_edit := false }
  match st.storage.get cid with
  | none => ({ st with flags := flags }, [.dataNotFound])
  | some pd =>
      let storage := (st.storage.update_text cid new_text).fst
      ({ storage := storage, flags := flags }, [.preview new_text pd.image])

/-- Embeds `_handle_ai_edit_input`: clear the flag, look up the record,
invoke the backend edit on `original_text or text`, and either surface the
exhaustion error (record untouched) or store the edited text. -/
def handle_ai_edit_input (textO : TextOracle) (st : BotState) (cid : Int)
    (msg : Message) : BotState × List Reply :=
  let instruction := msg.text.getD ""
  let flags := { st.flags with waiting_for_ai_edit := false }
  match st.storage.get cid with
  | none => ({ st with flags := flags }, [.dataNotFound])
  | some pd =>
      match edit_text_with_instruction textO (pyOrStr pd.original_text pd.text) instruction with
      | none => ({ st with flags := flags }, [.editError])
      | some edited =>
          let storage := (st.storage.update_text cid edited).fst
          ({ storage := storage, flags := flags }, [.preview edited pd.image])

/-- Embeds `_handle_image_upload`: the flag is popped first; a message
without a photo is answered with "please send an image"; otherwise the
largest photo size replaces the record's image. -/
def handle_image_upload (st : BotState) (cid : Int) (msg : Message) :
    BotState × List Reply :=
  let flags := { st.flags with waiting_for_image := false }
  if msg.photo.isEmpty then
    ({ st with flags := flags }, [.pleaseSendImage])
  else
    let user_image := (msg.photo.getLast?).getD []
    match st.storage.get cid with
    | none => ({ st with flags := flags }, [.dataNotFound])
    | some pd =>
        let storage := (st.storage.update_image cid user_image).fst
        ({ storage := storage, flags := flags }, [.preview pd.text user_image])

/-- Embeds `handle_message`: dispatch on the session flags in source order
(manual edit, then AI edit, then image upload), and otherwise treat the
message as a fresh news submission, which is ignored unless it carries text
or a captioned photo/video. -/
def handle_message (textO : TextOracle) (imgO : ImageOracle) (st : BotState)
    (cid : Int) (msg : Message) : BotState × List Reply :=
  if st.flags.waiting_for_manual_edit then handle_manual_edit_input st cid msg
  else if st.flags.waiting_for_ai_edit then handle_ai_edit_input textO st cid msg
  else if st.flags.waiting_for_image then handle_image_upload st cid msg
  else
    let has_text := truthyStr msg.text
    let has_photo_with_caption := !msg.photo.isEmpty && truthyStr msg.caption
    let has_video_with_caption := msg.video && truthyStr msg.caption
    if !(has_text || has_photo_with_caption || has_video_with_caption) then
      (st, [])
    else
      let news_text := if has_text then msg.text.getD "" else msg.caption.getD ""
      let user_image : Option Bytes :=
        if !msg.photo.isEmpty && msg.photo.length == 1 && !msg.video then
          msg.photo.getLast?
        else none
      match process_news_full textO imgO news_text user_image with
      | none => (st, [.processError])
      | some (shortened_text, image) =>
          if image.length = 0 then (st, [.processError])
          else
            let post : PostData :=
              { text := shortened_text
                image := image
                chat_id := cid
                original_text := some news_text }
            ({ st with storage := st.storage.save cid post },
             [.preview shortened_text image])

/-- Embeds `_handle_send`: deliver the record to the target group and delete
it; not-found is reported. Transport delivery is modelled as succeeding. -/
def handle_send (st : BotState) (cid : Int) : BotState × List Reply :=
  match st.storage.get cid with
  | none => (st, [.dataNotFound])
  | some pd =>
      ({ st with storage := st.storage.delete cid }, [.published pd.text pd.image])

/-- Embeds `_handle_cancel`: delete the record and acknowledge. -/
def handle_cancel (st : BotState) (cid : Int) : BotState × List Reply :=
  ({ st with storage := st.storage.delete cid }, [.cancelled])

/-- Embeds `_handle_regenerate_image`: look up the record, generate a new
prompt (a retried text call whose exhaustion is surfaced as an error), then
generate the image — which cannot fail hard — and store it. -/
def handle_regenerate_image (textO : TextOracle) (imgO : ImageOracle)
    (st : BotState) (cid : Int) : BotState × List Reply :=
  match st.storage.get cid with
  | none => (st, [.dataNotFound])
  | some pd =>
      match generate_image_prompt textO pd.text with
      | none => (st, [.imageGenError])
      | some prompt =>
          let new_image := generateImageSync imgO prompt
          if new_image.length = 0 then (st, [.imageGenError])
          else
            let storage := (st.storage.update_image cid new_image).fst
            ({ st with storage := storage }, [.preview pd.text new_image])

/-- Embeds `_handle_upload_image` (the button): set `waiting_for_image` and
prompt for a photo; the other flags are not touched. -/
def handle_upload_image (st : BotState) : BotState × List Reply :=
  ({ st with flags := { st.flags with waiting_for_image := true } }, [.promptShown])

/-- Embeds `_handle_ai_edit_text` (the button): set `waiting_for_ai_edit`
and prompt for an instruction; the other flags are not touched. -/
def handle_ai_edit_text (st : BotState) : BotState × List Reply :=
  ({ st with flags := { st.flags with waiting_for_ai_edit := true } }, [.promptShown])

/-- Embeds `_handle_manual_edit_text` (the button): set
`waiting_for_manual_edit` and prompt for the new text; the other flags are
not touched. -/
def handle_manual_edit_text (st : BotState) : BotState × List Reply :=
  ({ st with flags := { st.flags with waiting_for_manual_edit := true } }, [.promptShown])

/-- Embeds `_handle_cancel_operation`: pop all three waiting flags, then
re-render the preview if a record exists. -/
def handle_cancel_operation (st : BotState) (cid : Int) : BotState × List Reply :=
  let st := { st with flags := {} }
  match st.storage.get cid with
  | none => (st, [.cancelled])
  | some pd => (st, [.preview pd.text pd.image])

/-- Embeds `handle_callback`: route a button press by its callback data, as
the source's `handlers_map` dictionary does; menu-only handlers change no
controller state, and an unknown callback is only logged. -/
def handle_callback (textO : TextOracle) (imgO : ImageOracle) (st : BotState)
    (cid : Int) (data : String) : BotState × List Reply :=
  if data == "send" then handle_send st cid
  else if data == "cancel" then handle_cancel st cid
  else if data == "edit" then (st, [.menuShown])
  else if data == "edit_image" then (st, [.menuShown])
  else if data == "edit_text" then (st, [.menuShown])
  else if data == "regenerate_image" then handle_regenerate_image textO imgO st cid
  else if data == "upload_image" then handle_upload_image st
  else if data == "ai_edit_text" then handle_ai_edit_text st
  else if data == "manual_edit_text" then handle_manual_edit_text st
  else if data == "back_to_preview" then (st, [.menuShown])
  else if data == "back_to_edit" then (st, [.menuShown])
  else if data == "cancel_operation" then handle_cancel_operation st cid
  else (st, [])

/-- One inbound chat event: a free-form message or a button press. -/
inductive Event
  | message (m : Message)
  | callback (data : String)
deriving Repr, DecidableEq

/-- One dispatcher step for one chat: route the event to `handle_message`
or `handle_callback` and keep the resulting state. -/
def step (textO : TextOracle) (imgO : ImageOracle) (cid : Int)
    (st : BotState) (e : Event) : BotState :=
  match e with
  | .message m => (handle_message textO imgO st cid m).fst
  | .callback d => (handle_callback textO imgO st cid d).fst

/-- Run of the controller over a sequence of inbound events. -/
def run (textO : TextOracle) (imgO : ImageOracle) (cid : Int)
    (st : BotState) : List Event → BotState
  | [] => st
  | e :: es => run textO imgO cid (step textO imgO cid st e) es

/-- Fresh-process initial state for one chat: no snapshot on disk, no flags. -/
def initState : BotState :=
  { storage := PostStorage.reload .absent, flags := {} }

/-! ## Dictionary lemmas -/

theorem find?_map_replace_self (ps : List (Int × PostData)) (cid : Int) (pd : PostData)
    (h : ps.any (fun e => e.fst = cid) = true) :
    (ps.map (fun e => if e.fst = cid then (cid, pd) else e)).find?
      (fun e => e.fst = cid) = some (cid, pd) := by
  induction ps with
  | nil => simp at h
  | cons a ps ih =>
      rw [List.map_cons]
      by_cases ha : a.fst = cid
      · rw [if_pos ha]
        exact List.find?_cons_of_pos _ (by simp)
      · rw [if_neg ha, List.find?_cons_of_neg _ (by simp [ha])]
        exact ih (by simpa [List.any_cons, ha] using h)

theorem find?_map_replace_ne (ps : List (Int × PostData)) (cid cid' : Int) (pd : PostData)
    (hne : cid' ≠ cid) :
    (ps.map (fun e => if e.fst = cid then (cid, pd) else e)).find?
      (fun e => e.fst = cid') = ps.find? (fun e => e.fst = cid') := by
  induction ps with
  | nil => rfl
  | cons a ps ih =>
      rw [List.map_cons]
      by_cases ha : a.fst = cid
      · rw [if_pos ha,
            List.find?_cons_of_neg _ (by simp; exact fun hc => hne hc.symm),
            List.find?_cons_of_neg _ (by simp [ha]; exact fun hc => hne hc.symm)]
        exact ih
      · by_cases ha' : a.fst = cid'
        · rw [if_neg ha, List.find?_cons_of_pos _ (by simp [ha']),
              List.find?_cons_of_pos _ (by simp [ha'])]
        · rw [if_neg ha, List.find?_cons_of_neg _ (by simp [ha']),
              List.find?_cons_of_neg _ (by simp [ha'])]
          exact ih

theorem dictGet_dictInsert_self (ps : List (Int × PostData)) (cid : Int) (pd : PostData) :
    dictGet (dictInsert ps cid pd) cid = some pd := by
  unfold dictInsert dictGet
  by_cases h : ps.any (fun e => e.fst = cid) = true
  · rw [if_pos h, find?_map_replace_self ps cid pd h]
    rfl
  · rw [if_neg h]
    have h' : ps.any (fun e => decide (e.fst = cid)) = false := Bool.eq_false_iff.mpr h
    have hnone : ps.find? (fun e => decide (e.fst = cid)) = none :=
      List.find?_eq_none.mpr (List.any_eq_false.mp h')
    rw [List.find?_append, hnone]
    simp

theorem dictGet_dictInsert_ne (ps : List (Int × PostData)) (cid cid' : Int) (pd : PostData)
    (hne : cid' ≠ cid) :
    dictGet (dictInsert ps cid pd) cid' = dictGet ps cid' := by
  unfold dictInsert dictGet
  by_cases h : ps.any (fun e => e.fst = cid) = true
  · rw [if_pos h, find?_map_replace_ne ps cid cid' pd hne]
  · rw [if_neg h, List.find?_append]
    have hlast : List.find? (fun e => decide (e.fst = cid')) [(cid, pd)] = none := by
      simp [List.find?, Ne.symm hne]
    rw [hlast, Option.or_none]

theorem keys_dictInsert (ps : List (Int × PostData)) (cid : Int) (pd : PostData) :
    (dictInsert ps cid pd).map Prod.fst =
      if ps.any (fun e => e.fst = cid) then ps.map Prod.fst
      else ps.map Prod.fst ++ [cid] := by
  unfold dictInsert
  by_cases h : ps.any (fun e => e.fst = cid) = true
  · rw [if_pos h, if_pos h, List.map_map]
    refine List.map_congr_left ?_
    intro e _
    by_cases he : e.fst = cid <;> simp [he]
  · rw [if_neg h, if_neg h]
    simp

theorem keys_dictInsert_nodup (ps : List (Int × PostData)) (cid : Int) (pd : PostData)
    (h : (ps.map Prod.fst).Nodup) :
    ((dictInsert ps cid pd).map Prod.fst).Nodup := by
  rw [keys_dictInsert]
  by_cases hany : ps.any (fun e => e.fst = cid) = true
  · rw [if_pos hany]; exact h
  · rw [if_neg hany]
    have hnot : cid ∉ ps.map Prod.fst := by
      intro hmem
      rcases List.mem_map.mp hmem with ⟨e, he, hfst⟩
      have := List.any_eq_false.mp (Bool.eq_false_iff.mpr hany) e he
      simp [hfst] at this
    simp [List.nodup_append, h, hnot]

/-! ## Sample data shared by concrete witnesses and counterexamples -/

/-- An empty store with no snapshot, as produced by a fresh start. -/
def emptyStorage : PostStorage := { posts := [], disk := .absent }

/-- A concrete record used in witnesses. -/
def samplePostA : PostData :=
  { text := "first", image := [1, 2, 3], chat_id := 1, original_text := some "news one" }

/-- A second concrete record for the same chat, sharing no field values with
`samplePostA`. -/
def samplePostB : PostData :=
  { text := "second", image := [9], chat_id := 1, original_text := some "news two",
    message_id := some 7 }

/-! ## C3 — `save` is an unconditional upsert -/

/-- C3: for every chat_id at most one record exists: `save` keeps the keys
of the map duplicate-free, and a second `save` for the same chat_id makes
`get` return exactly the second record (full replacement, no field merge)
while every other chat's record is untouched. -/
theorem save_second_put_fully_replaces (s : PostStorage) (cid : Int) (r1 r2 : PostData)
    (hkeys : (s.posts.map Prod.fst).Nodup) :
    ((s.save cid r1).save cid r2).get cid = some r2
    ∧ (∀ cid', cid' ≠ cid → ((s.save cid r1).save cid r2).get cid' = s.get cid')
    ∧ (∀ c : Int, (((s.save cid r1).save cid r2).posts.map Prod.fst).count c ≤ 1) := by
  refine ⟨?_, ?_, ?_⟩
  · exact dictGet_dictInsert_self _ cid r2
  · intro cid' hne
    simp only [PostStorage.save, PostStorage.get]
    rw [dictGet_dictInsert_ne _ cid cid' r2 hne, dictGet_dictInsert_ne _ cid cid' r1 hne]
  · intro c
    have h1 : (((s.save cid r1).posts).map Prod.fst).Nodup :=
      keys_dictInsert_nodup s.posts cid r1 hkeys
    have h2 : ((((s.save cid r1).save cid r2).posts).map Prod.fst).Nodup :=
      keys_dictInsert_nodup _ cid r2 h1
    exact List.nodup_iff_count_le_one.mp h2 c

/-- Witness for C3 at a concrete store and two concrete records. -/
theorem save_second_put_fully_replaces_witness :
    (((emptyStorage.posts.map Prod.fst).Nodup : Prop)
    ∧ ((emptyStorage.save 1 samplePostA).save 1 samplePostB).get 1 = some samplePostB) :=
  ⟨by decide,
   (save_second_put_fully_replaces emptyStorage 1 samplePostA samplePostB (by decide)).1⟩

/-! ## C6 — `update_text` / `update_image` not-found contract -/

/-- C6: with no record for the chat, `update_text` and `update_image` return
`false` and leave the store (in-memory map and persisted snapshot) exactly
as it was; with a record present they return `true`, replace only the
corresponding field of that record, and leave every other chat's record
unchanged. -/
theorem update_miss_is_noop_hit_replaces_field (s : PostStorage) (cid : Int)
    (t : String) (img : Bytes) :
    (s.get cid = none →
        s.update_text cid t = (s, false) ∧ s.update_image cid img = (s, false))
    ∧ (∀ pd, s.get cid = some pd →
        (s.update_text cid t).snd = true
        ∧ (s.update_text cid t).fst.get cid = some { pd with text := t }
        ∧ (∀ cid', cid' ≠ cid → (s.update_text cid t).fst.get cid' = s.get cid')
        ∧ (s.update_image cid img).snd = true
        ∧ (s.update_image cid img).fst.get cid = some { pd with image := img }
        ∧ (∀ cid', cid' ≠ cid → (s.update_image cid img).fst.get cid' = s.get cid')) := by
  constructor
  · intro hnone
    have hg : dictGet s.posts cid = none := hnone
    constructor
    · simp [PostStorage.update_text, hg]
    · simp [PostStorage.update_image, hg]
  · intro pd hsome
    have hg : dictGet s.posts cid = some pd := hsome
    refine ⟨?_, ?_, ?_, ?_, ?_, ?_⟩
    · simp [PostStorage.update_text, hg]
    · simp [PostStorage.update_text, hg, PostStorage.get, dictGet_dictInsert_self]
    · intro cid' hne
      simp only [PostStorage.update_text, hg, PostStorage.get]
      exact dictGet_dictInsert_ne _ cid cid' _ hne
    · simp [PostStorage.update_image, hg]
    · simp [PostStorage.update_image, hg, PostStorage.get, dictGet_dictInsert_self]
    · intro cid' hne
      simp only [PostStorage.update_image, hg, PostStorage.get]
      exact dictGet_dictInsert_ne _ cid cid' _ hne

/-- Witness for C6: a miss returns `false` and the untouched store; a hit
returns `true`. -/
theorem update_miss_is_noop_hit_replaces_field_witness :
    emptyStorage.update_text 1 "x" = (emptyStorage, false)
    ∧ ((emptyStorage.save 1 samplePostA).update_text 1 "y").snd = true := by
  constructor
  · exact ((update_miss_is_noop_hit_replaces_field emptyStorage 1 "x" [9]).1 (by decide)).1
  · exact (((update_miss_is_noop_hit_replaces_field (emptyStorage.save 1 samplePostA)
      1 "y" [9]).2) samplePostA (by decide)).1

/-! ## C1 — session-flag exclusivity -/

/-- C1 counterexample: from the fresh initial state, pressing the
`manual_edit_text` button and then the `upload_image` button reaches a
state where two editing flags are set at once — so the enter-edit-mode
transitions do not clear the other flags, and the at-most-one-flag
invariant fails on a reachable state. -/
theorem two_flags_reachable_counterexample :
    ((run (fun _ _ => none) (fun _ _ => .genRaise) 1 initState
        [.callback "manual_edit_text", .callback "upload_image"]).flags.waiting_for_manual_edit
      = true)
    ∧ ((run (fun _ _ => none) (fun _ _ => .genRaise) 1 initState
        [.callback "manual_edit_text", .callback "upload_image"]).flags.waiting_for_image
      = true) := by
  constructor <;> rfl

/-- C1 amended: each enter-edit-mode transition (`upload_image`,
`ai_edit_text`, `manual_edit_text`) sets the flag it needs and leaves the
other two editing flags unchanged instead of clearing them (and leaves the
store untouched); at most one flag is therefore guaranteed only when the
transition starts from the all-clear default state. -/
theorem enter_edit_transitions_set_only_their_flag (tO : TextOracle) (iO : ImageOracle)
    (st : BotState) (cid : Int) :
    (handle_callback tO iO st cid "upload_image").fst
        = { st with flags := { st.flags with waiting_for_image := true } }
    ∧ (handle_callback tO iO st cid "ai_edit_text").fst
        = { st with flags := { st.flags with waiting_for_ai_edit := true } }
    ∧ (handle_callback tO iO st cid "manual_edit_text").fst
        = { st with flags := { st.flags with waiting_for_manual_edit := true } } := by
  refine ⟨rfl, rfl, rfl⟩

/-! ## C2 — non-photo input while awaiting an image -/

/-- A concrete state whose chat 1 has a pending record and is awaiting an
image upload. -/
def awaitingImageState : BotState :=
  { storage := emptyStorage.save 1 samplePostA, flags := { waiting_for_image := true } }

/-- C2 counterexample: with `waiting_for_image` set, a message carrying no
photo makes the controller report "please send an image" but the flag is
popped before the photo check, so it is `false` afterwards — the chat does
not remain in the AWAITING_IMAGE state. -/
theorem awaiting_image_nonphoto_counterexample :
    ((handle_message (fun _ _ => none) (fun _ _ => .genRaise) awaitingImageState 1
        { text := some "hello" }).fst.flags.waiting_for_image = false)
    ∧ ((handle_message (fun _ _ => none) (fun _ _ => .genRaise) awaitingImageState 1
        { text := some "hello" }).snd = [.pleaseSendImage]) := by
  constructor <;> rfl

/-- C2 amended: when `waiting_for_image` is set (and the higher-priority
flags are clear) and the next inbound message carries no photo, the
controller reports "please send an image", clears the flag (the chat
returns to default mode), and leaves the store unchanged. -/
theorem awaiting_image_nonphoto_clears_flag (tO : TextOracle) (iO : ImageOracle)
    (st : BotState) (cid : Int) (msg : Message)
    (h1 : st.flags.waiting_for_manual_edit = false)
    (h2 : st.flags.waiting_for_ai_edit = false)
    (h3 : st.flags.waiting_for_image = true)
    (h4 : msg.photo = []) :
    handle_message tO iO st cid msg
      = ({ st with flags := { st.flags with waiting_for_image := false } },
         [.pleaseSendImage]) := by
  simp [handle_message, h1, h2, h3, handle_image_upload, h4]

/-- Witness for the amended C2 at the concrete awaiting-image state. -/
theorem awaiting_image_nonphoto_clears_flag_witness :
    handle_message (fun _ _ => none) (fun _ _ => .genRaise) awaitingImageState 1
        { text := some "hi" }
      = ({ awaitingImageState with
            flags := { awaitingImageState.flags with waiting_for_image := false } },
         [.pleaseSendImage]) :=
  awaiting_image_nonphoto_clears_flag _ _ awaitingImageState 1 _ rfl rfl rfl rfl

/-! ## C10 — flag dispatch priority in `handle_message` -/

theorem handle_manual_edit_input_no_create (st : BotState) (cid : Int) (msg : Message)
    (h : st.storage.get cid = none) :
    (handle_manual_edit_input st cid msg).fst.storage = st.storage := by
  simp [handle_manual_edit_input, h]

theorem handle_ai_edit_input_no_create (tO : TextOracle) (st : BotState) (cid : Int)
    (msg : Message) (h : st.storage.get cid = none) :
    (handle_ai_edit_input tO st cid msg).fst.storage = st.storage := by
  simp [handle_ai_edit_input, h]

theorem handle_image_upload_no_create (st : BotState) (cid : Int) (msg : Message)
    (h : st.storage.get cid = none) :
    (handle_image_upload st cid msg).fst.storage = st.storage := by
  unfold handle_image_upload
  by_cases hp : msg.photo.isEmpty
  · simp [hp]
  · simp [hp, h]

/-- C10: when at least one session flag is set, `handle_message` dispatches
the inbound message by the fixed priority manual edit, then AI edit, then
image upload — exactly the corresponding handler runs — and the message is
never treated as a new submission: if the chat has no record, none is
created. -/
theorem flag_dispatch_priority (tO : TextOracle) (iO : ImageOracle) (st : BotState)
    (cid : Int) (msg : Message)
    (h : (st.flags.waiting_for_manual_edit || st.flags.waiting_for_ai_edit
          || st.flags.waiting_for_image) = true) :
    (handle_message tO iO st cid msg
      = (if st.flags.waiting_for_manual_edit then handle_manual_edit_input st cid msg
         else if st.flags.waiting_for_ai_edit then handle_ai_edit_input tO st cid msg
         else handle_image_upload st cid msg))
    ∧ (st.storage.get cid = none →
        (handle_message tO iO st cid msg).fst.storage.get cid = none) := by
  by_cases hm : st.flags.waiting_for_manual_edit
  · refine ⟨by simp [handle_message, hm], ?_⟩
    intro hn
    simp [handle_message, hm, handle_manual_edit_input_no_create st cid msg hn, hn]
  · by_cases hai : st.flags.waiting_for_ai_edit
    · refine ⟨by simp [handle_message, hm, hai], ?_⟩
      intro hn
      simp [handle_message, hm, hai, handle_ai_edit_input_no_create tO st cid msg hn, hn]
    · have himg : st.flags.waiting_for_image = true := by
        simpa [hm, hai] using h
      refine ⟨by simp [handle_message, hm, hai, himg], ?_⟩
      intro hn
      simp [handle_message, hm, hai, himg, handle_image_upload_no_create st cid msg hn, hn]

/-- A state with two editing flags set at once and no record. -/
def twoFlagState : BotState :=
  { storage := emptyStorage,
    flags := { waiting_for_manual_edit := true, waiting_for_image := true } }

/-- Witness for C10: with both the manual-edit and the awaiting-image flags
set, the manual-edit handler wins. -/
theorem flag_dispatch_priority_witness :
    handle_message (fun _ _ => none) (fun _ _ => .genRaise) twoFlagState 1
        { text := some "z" }
      = handle_manual_edit_input twoFlagState 1 { text := some "z" } := by
  have h := (flag_dispatch_priority (fun _ _ => none) (fun _ _ => .genRaise) twoFlagState 1
    { text := some "z" } (by decide)).1
  simpa [twoFlagState] using h

/-! ## C7 — AI edit under backend exhaustion -/

/-- C7: in the AWAITING_AI_INSTRUCTION state with a record present, when the
backend edit call fails on all three retry attempts the controller surfaces
the edit error, clears `waiting_for_ai_edit`, and leaves the store — hence
the chat's record with its text, original_text and image — completely
unchanged. -/
theorem ai_edit_exhaustion_leaves_record_unchanged (tO : TextOracle) (iO : ImageOracle)
    (st : BotState) (cid : Int) (msg : Message) (pd : PostData)
    (h1 : st.flags.waiting_for_manual_edit = false)
    (h2 : st.flags.waiting_for_ai_edit = true)
    (hrec : st.storage.get cid = some pd)
    (hfail : ∀ p i, tO p i = none) :
    handle_message tO iO st cid msg
      = ({ st with flags := { st.flags with waiting_for_ai_edit := false } },
         [.editError]) := by
  simp [handle_message, h1, h2, handle_ai_edit_input, hrec,
        edit_text_with_instruction, retryText, textAttemptOk, hfail]

/-- A concrete state whose chat 1 has a record and awaits an AI instruction. -/
def awaitingAiState : BotState :=
  { storage := emptyStorage.save 1 samplePostA, flags := { waiting_for_ai_edit := true } }

/-- Witness for C7 at a concrete state with a fully failing text backend. -/
theorem ai_edit_exhaustion_leaves_record_unchanged_witness :
    handle_message (fun _ _ => none) (fun _ _ => .genRaise) awaitingAiState 1
        { text := some "shorter" }
      = ({ awaitingAiState with
            flags := { awaitingAiState.flags with waiting_for_ai_edit := false } },
         [.editError]) :=
  ai_edit_exhaustion_leaves_record_unchanged _ _ awaitingAiState 1 _ samplePostA
    rfl rfl (by decide) (fun _ _ => rfl)

/-! ## C8 — `regenerate_image` and backend failure -/

theorem update_image_hit_get (s : PostStorage) (cid : Int) (img : Bytes) (pd : PostData)
    (h : s.get cid = some pd) :
    (s.update_image cid img).fst.get cid = some { pd with image := img } := by
  have hg : dictGet s.posts cid = some pd := h
  simp [PostStorage.update_image, hg, PostStorage.get, dictGet_dictInsert_self]

theorem generateImageStep_ne_nil (o : ImageOracle) (p : String) (i : Nat) (b : Bytes)
    (h : generateImageStep o p i = some b) : b ≠ [] := by
  unfold generateImageStep at h
  cases ho : o p i with
  | genRaise => rw [ho] at h; simp at h
  | noImage => rw [ho] at h; simp at h; subst h; decide
  | image d =>
      rw [ho] at h
      by_cases hd : d.length = 0
      · simp [hd] at h; subst h; decide
      · simp [hd] at h
        subst h
        exact fun hnil => hd (by simp [hnil])

theorem generateImageSync_ne_nil (o : ImageOracle) (p : String) :
    generateImageSync o p ≠ [] := by
  unfold generateImageSync
  cases h0 : generateImageStep o p 0 with
  | some b => exact generateImageStep_ne_nil o p 0 b h0
  | none =>
      cases h1 : generateImageStep o p 1 with
      | some b => exact generateImageStep_ne_nil o p 1 b h1
      | none =>
          cases h2 : generateImageStep o p 2 with
          | some b => exact generateImageStep_ne_nil o p 2 b h2
          | none => decide

/-- A concrete preview state: chat 1 holds `samplePostA`, no flags set. -/
def previewState : BotState :=
  { storage := emptyStorage.save 1 samplePostA, flags := {} }

/-- C8 counterexample: when the prompt-generation text call exhausts its
three retries, `regenerate_image` surfaces a hard failure to the chat and
does not touch the record's image — even though the image backend itself
(here healthy) would have produced bytes. So the action can surface a hard
failure. -/
theorem regenerate_image_counterexample :
    handle_regenerate_image (fun _ _ => none) (fun _ _ => .image [5]) previewState 1
      = (previewState, [.imageGenError]) := by
  rfl

/-- C8 amended: provided the prompt-generation call succeeds within its
retries, `regenerate_image` never surfaces a hard failure: for every image
backend behaviour the record's image is replaced via `update_image` with a
non-empty image, a preview is rendered, and under total image backend
failure that image is exactly the locally synthesized placeholder; only an
exhausted prompt-generation call surfaces an error (with the record left
unchanged, as the counterexample shows). -/
theorem regenerate_image_prompt_ok_never_fails (tO : TextOracle) (iO : ImageOracle)
    (st : BotState) (cid : Int) (pd : PostData) (prompt : String)
    (hrec : st.storage.get cid = some pd)
    (hprompt : generate_image_prompt tO pd.text = some prompt) :
    (handle_regenerate_image tO iO st cid).fst.storage.get cid
        = some { pd with image := generateImageSync iO prompt }
    ∧ generateImageSync iO prompt ≠ []
    ∧ (handle_regenerate_image tO iO st cid).snd
        = [.preview pd.text (generateImageSync iO prompt)]
    ∧ ((∀ i, iO prompt i = .genRaise) → generateImageSync iO prompt = placeholderImage) := by
  have hrecd : dictGet st.storage.posts cid = some pd := hrec
  have hne : generateImageSync iO prompt ≠ [] := generateImageSync_ne_nil iO prompt
  have hlen : ¬(generateImageSync iO prompt).length = 0 := by
    simpa [List.length_eq_zero] using hne
  refine ⟨?_, hne, ?_, ?_⟩
  · simp only [handle_regenerate_image, hrec, hprompt, if_neg hlen]
    exact update_image_hit_get st.storage cid _ pd hrec
  · simp only [handle_regenerate_image, hrec, hprompt, if_neg hlen]
  · intro hfail
    simp [generateImageSync, generateImageStep, hfail]

/-- Witness for the amended C8: healthy prompt backend, image backend
failing on every attempt — the record's image becomes the placeholder. -/
theorem regenerate_image_prompt_ok_never_fails_witness :
    ((handle_regenerate_image (fun _ _ => some "p") (fun _ _ => .genRaise) previewState 1).fst.storage.get 1
        = some { samplePostA with
                  image := generateImageSync (fun _ _ => .genRaise) "p" })
    ∧ generateImageSync (fun _ _ => GenAttempt.genRaise) "p" = placeholderImage := by
  have h := regenerate_image_prompt_ok_never_fails (fun _ _ => some "p")
    (fun _ _ => .genRaise) previewState 1 samplePostA "p" (by decide) (by decide)
  exact ⟨h.1, h.2.2.2 (fun _ => rfl)⟩

/-! ## C9 — single user photo bypasses image generation -/

/-- The news text of a submission: the message text when truthy, otherwise
the caption (`news_text = update.message.text if has_text else
update.message.caption`). -/
def newsTextOf (msg : Message) : String :=
  if truthyStr msg.text then msg.text.getD "" else msg.caption.getD ""

/-- C9: in default mode, a processed submission with exactly one photo and
no video stores that photo's bytes as the record's image, for every image
backend behaviour — no generation call influences the result; a submission
with more than one photo, or a photo alongside a video, stores the
backend-generated image instead. -/
theorem single_photo_bypasses_generation (tO : TextOracle) (iO : ImageOracle)
    (st : BotState) (cid : Int) (msg : Message) (s : String)
    (hflags : st.flags = {})
    (hacc : (truthyStr msg.text || (!msg.photo.isEmpty && truthyStr msg.caption)
             || (msg.video && truthyStr msg.caption)) = true)
    (hshort : shorten_news tO (newsTextOf msg) = some s) :
    (∀ p, msg.photo = [p] → p ≠ [] → msg.video = false →
        (handle_message tO iO st cid msg).fst.storage.get cid
          = some { text := s, image := p, chat_id := cid,
                   original_text := some (newsTextOf msg) })
    ∧ (∀ prompt, (1 < msg.photo.length ∨ (msg.photo ≠ [] ∧ msg.video = true)) →
        generate_image_prompt tO s = some prompt →
        (handle_message tO iO st cid msg).fst.storage.get cid
          = some { text := s, image := generateImageSync iO prompt, chat_id := cid,
                   original_text := some (newsTextOf msg) }) := by
  have hm : st.flags.waiting_for_manual_edit = false := by rw [hflags]
  have hai : st.flags.waiting_for_ai_edit = false := by rw [hflags]
  have hw : st.flags.waiting_for_image = false := by rw [hflags]
  have hshort' : shorten_news tO
      (if truthyStr msg.text = true then msg.text.getD "" else msg.caption.getD "")
      = some s := by
    simpa [newsTextOf] using hshort
  have hacc' : ¬(truthyStr msg.text = false ∧ truthyStr msg.caption = false) := by
    rintro ⟨ht, hc⟩
    rw [ht, hc] at hacc
    simp at hacc
  constructor
  · intro p hp hpne hv
    have hlen : ¬(p.length = 0) := by
      simpa [List.length_eq_zero] using hpne
    simp [handle_message, hm, hai, hw, hacc, hacc', hp, hv, process_news_full,
          hshort', hlen, newsTextOf, PostStorage.save, PostStorage.get,
          dictGet_dictInsert_self]
  · intro prompt hcase hprompt
    have hcond : (!msg.photo.isEmpty && msg.photo.length == 1 && !msg.video) = false := by
      rcases hcase with hgt | ⟨hpne, hvid⟩
      · have h1 : (msg.photo.length == 1) = false :=
          beq_eq_false_iff_ne.mpr (by omega)
        simp [h1]
      · simp [hvid]
    have hgen : ¬((generateImageSync iO prompt).length = 0) := by
      simpa [List.length_eq_zero] using generateImageSync_ne_nil iO prompt
    simp [handle_message, hm, hai, hw, hacc, hacc', hcond, process_news_full,
          hshort', hprompt, hgen, newsTextOf, PostStorage.save, PostStorage.get,
          dictGet_dictInsert_self]

/-- Witness for C9: a caption plus exactly one photo yields a record whose
image is exactly the supplied photo bytes, with an image backend that only
fails. -/
theorem single_photo_bypasses_generation_witness :
    (handle_message (fun _ _ => some "short") (fun _ _ => .genRaise) initState 1
        { photo := [[7, 8]], caption := some "Breaking news" }).fst.storage.get 1
      = some { text := "short", image := [7, 8], chat_id := 1,
               original_text := some (newsTextOf
                  { photo := [[7, 8]], caption := some "Breaking news" }) } :=
  (single_photo_bypasses_generation (fun _ _ => some "short") (fun _ _ => .genRaise)
    initState 1 { photo := [[7, 8]], caption := some "Breaking news" } "short"
    rfl (by decide) (by decide)).1 [7, 8] rfl (by decide) rfl

/-! ## C4 — save / reload round trip through the base64 snapshot -/

/-- Well-formedness of a store as the API maintains it: every image is a
genuine byte string, every record's `chat_id` is its map key, and keys are
duplicate-free. -/
def StoreValid (s : PostStorage) : Prop :=
  (∀ e ∈ s.posts, BytesValid e.snd.image ∧ e.snd.chat_id = e.fst)
  ∧ (s.posts.map Prod.fst).Nodup

instance (s : PostStorage) : Decidable (StoreValid s) := by
  unfold StoreValid; infer_instance

theorem dictInsert_of_not_mem (ps : List (Int × PostData)) (cid : Int) (pd : PostData)
    (h : ps.any (fun e => e.fst = cid) = false) :
    dictInsert ps cid pd = ps ++ [(cid, pd)] := by
  simp [dictInsert, h]

theorem mem_dictInsert (e : Int × PostData) (ps : List (Int × PostData)) (cid : Int)
    (pd : PostData) (he : e ∈ dictInsert ps cid pd) : e = (cid, pd) ∨ e ∈ ps := by
  unfold dictInsert at he
  by_cases hany : ps.any (fun x => x.fst = cid) = true
  · rw [if_pos hany] at he
    rcases List.mem_map.mp he with ⟨x, hx, hfx⟩
    by_cases hxc : x.fst = cid
    · rw [if_pos hxc] at hfx; exact Or.inl hfx.symm
    · rw [if_neg hxc] at hfx; exact Or.inr (hfx ▸ hx)
  · rw [if_neg hany] at he
    rcases List.mem_append.mp he with hin | hin
    · exact Or.inr hin
    · exact Or.inl (by simpa using hin)

theorem loadLoop_serialize (posts : List (Int × PostData)) :
    ∀ acc : List (Int × PostData),
      (∀ e ∈ posts, BytesValid e.snd.image ∧ e.snd.chat_id = e.fst) →
      ((acc ++ posts).map Prod.fst).Nodup →
      loadLoop acc (posts.map serializeEntry) = (acc ++ posts, true) := by
  induction posts with
  | nil => intro acc _ _; simp [loadLoop]
  | cons e rest ih =>
      intro acc hvalid hkeys
      obtain ⟨cid, pd⟩ := e
      have hv := hvalid (cid, pd) (by simp)
      have hdec : base64Decode (base64Encode pd.image) = some pd.image :=
        base64_roundtrip pd.image hv.1
      have hload : loadEntry cid
          { text := pd.text, original_text := pd.original_text,
            image_base64 := base64Encode pd.image, chat_id := pd.chat_id,
            message_id := pd.message_id } = some pd := by
        obtain ⟨t, im, ci, ot, mi⟩ := pd
        have hci : ci = cid := hv.2
        simp [loadEntry, hdec, hci]
      have hnotin : acc.any (fun x => x.fst = cid) = false := by
        apply List.any_eq_false.mpr
        intro x hx
        simp only [decide_eq_true_eq]
        intro hfx
        have hdisj : (acc.map Prod.fst).Disjoint (((cid, pd) :: rest).map Prod.fst) := by
          have h := hkeys
          rw [List.map_append, List.nodup_append] at h
          exact h.2.2
        exact hdisj (List.mem_map.mpr ⟨x, hx, hfx⟩) (by simp)
      have hkeys' : (((acc ++ [(cid, pd)]) ++ rest).map Prod.fst).Nodup := by
        simpa [List.append_assoc] using hkeys
      have hvalid' : ∀ e ∈ rest, BytesValid e.snd.image ∧ e.snd.chat_id = e.fst :=
        fun e hein => hvalid e (by simp [hein])
      have histep := ih (acc ++ [(cid, pd)]) hvalid' hkeys'
      simp only [List.map_cons, serializeEntry, loadLoop, hload,
                 dictInsert_of_not_mem acc cid pd hnotin]
      rw [histep]
      simp [List.append_assoc]

/-- C4: a `put` (`save`) of a record whose `chat_id` is its key, on a
well-formed store, followed by a reload of the persisted snapshot (as after
a process restart), reconstructs exactly the same store — in particular
`get` returns a record equal to the one saved, with text, original_text,
image bytes and chat_id all preserved through the base64 encode/decode
cycle. -/
theorem save_reload_roundtrip (s : PostStorage) (cid : Int) (pd : PostData)
    (hS : StoreValid s) (hpd : BytesValid pd.image) (hcid : pd.chat_id = cid) :
    PostStorage.reload (s.save cid pd).disk = s.save cid pd
    ∧ (PostStorage.reload (s.save cid pd).disk).get cid = some pd := by
  have hvalid' : ∀ e ∈ dictInsert s.posts cid pd,
      BytesValid e.snd.image ∧ e.snd.chat_id = e.fst := by
    intro e he
    rcases mem_dictInsert e s.posts cid pd he with rfl | hin
    · exact ⟨hpd, hcid⟩
    · exact hS.1 e hin
  have hkeys' : (([] ++ dictInsert s.posts cid pd).map Prod.fst).Nodup := by
    simpa using keys_dictInsert_nodup s.posts cid pd hS.2
  have hloop := loadLoop_serialize (dictInsert s.posts cid pd) [] hvalid' hkeys'
  simp only [List.nil_append] at hloop
  have hre : PostStorage.reload (s.save cid pd).disk = s.save cid pd := by
    simp [PostStorage.reload, PostStorage.save, saveToDisk, loadFromDisk, hloop]
  refine ⟨hre, ?_⟩
  rw [hre]
  exact dictGet_dictInsert_self s.posts cid pd

/-- Witness for C4 at a concrete store and record. -/
theorem save_reload_roundtrip_witness :
    StoreValid emptyStorage
    ∧ (PostStorage.reload (emptyStorage.save 1 samplePostA).disk).get 1
        = some samplePostA :=
  ⟨by decide,
   (save_reload_roundtrip emptyStorage 1 samplePostA (by decide) (by decide) rfl).2⟩

/-! ## C5 — corrupt snapshot tolerance on reload -/

/-- A decodable snapshot entry for chat 1. -/
def goodSnapEntry : SnapEntry :=
  { text := "t", original_text := none, image_base64 := base64Encode [1], chat_id := 1,
    message_id := none }

/-- A snapshot entry whose image field is a single base64 data character:
`base64.b64decode("A")` raises `binascii.Error` ("number of data characters
(1) cannot be 1 more than a multiple of 4"), so loading this entry raises. -/
def badSnapEntry : SnapEntry :=
  { text := "u", original_text := none, image_base64 := ['A'], chat_id := 2,
    message_id := none }

/-- C5 counterexample: a corrupt snapshot whose first entry is intact and
whose second is unreadable does not reload to an empty store — the entries
loaded before the failure survive, so "reload yields an empty store" is
false for this corrupt snapshot. -/
theorem corrupt_snapshot_nonempty_counterexample :
    (PostStorage.reload (.parsed [(1, goodSnapEntry), (2, badSnapEntry)])).posts
      = [(1, { text := "t", image := [1], chat_id := 1, original_text := none,
               message_id := none })]
    ∧ (PostStorage.reload (.parsed [(1, goodSnapEntry), (2, badSnapEntry)])).posts
        ≠ [] := by
  constructor <;> decide

/-- C5 amended: reload never raises on a corrupt or unreadable snapshot and
removes the bad file: an unreadable (unparseable) or missing snapshot
yields an empty store, and a parseable snapshot with an invalid entry
yields exactly the records loaded before the first failing entry — which is
the empty store only when the failure comes first. -/
theorem reload_tolerates_corruption (gs : List (Int × SnapEntry)) (b : Int × SnapEntry)
    (rest : List (Int × SnapEntry)) (hbad : loadEntry b.fst b.snd = none) :
    PostStorage.reload (.parsed (gs ++ b :: rest))
        = { posts := (loadLoop [] gs).fst, disk := .absent }
    ∧ PostStorage.reload .corrupt = { posts := [], disk := .absent }
    ∧ PostStorage.reload .absent = { posts := [], disk := .absent } := by
  obtain ⟨bc, be⟩ := b
  have key : ∀ (gs' : List (Int × SnapEntry)) (acc : List (Int × PostData)),
      loadLoop acc (gs' ++ (bc, be) :: rest) = ((loadLoop acc gs').fst, false) := by
    intro gs'
    induction gs' with
    | nil => intro acc; simp [loadLoop, hbad]
    | cons g gs'' ih =>
        intro acc
        obtain ⟨gc, ge⟩ := g
        cases hle : loadEntry gc ge with
        | none => simp [loadLoop, hle]
        | some pd => simp [loadLoop, hle, ih]
  refine ⟨?_, rfl, rfl⟩
  simp [PostStorage.reload, loadFromDisk, key gs []]

/-- Witness for the amended C5: the one-good-one-bad snapshot reloads to
exactly the good prefix, and the bad file is removed. -/
theorem reload_tolerates_corruption_witness :
    PostStorage.reload (.parsed [(1, goodSnapEntry), (2, badSnapEntry)])
      = { posts := (loadLoop [] [(1, goodSnapEntry)]).fst, disk := .absent } :=
  (reload_tolerates_corruption [(1, goodSnapEntry)] (2, badSnapEntry) [] (by decide)).1
